import Mathlib

/-!
# Verification of the filter/sort/pagination core of django-opensearch-dsl-filtering

The repository ships the tests, an example script and a demo Django project of a
declarative filter/query compiler for an OpenSearch backend.  The filtering
package itself (`django_opensearch_dsl_filtering`) is not part of the source
tree available here, so the core — the FieldFilter clause compiler, the
SortResolver, the Paginator and the DocumentFilterSet orchestrator — is
modelled from the specification, cross-checked against the behaviour pinned
down by the test suite (`tests/test_pagination.py`, `tests/test_nested_sorting.py`,
`tests/test_filters_unit.py`, `tests/test_filters_integration.py`).
-/

namespace OpensearchFiltering

/-! ## Paginator -/

/-- Modelled from the spec: the Paginator (missing module
`django_opensearch_dsl_filtering`, `DocumentFilterSet.search` pagination step).
`max_page = ceil(total_hits / page_size)` if `total_hits > 0`, else `1`.
Ceiling division of naturals is `(t + s - 1) / s`. -/
def maxPage (totalHits pageSize : Nat) : Nat :=
  if 0 < totalHits then (totalHits + pageSize - 1) / pageSize else 1

/-- Modelled from the spec: `effective_page = min(max(requested_page, 1), max_page)`.
The requested page may be any integer; the result is always at least 1,
so it is returned as a natural number. -/
def effectivePage (totalHits : Nat) (requestedPage : Int) (pageSize : Nat) : Nat :=
  (min (max requestedPage 1) (maxPage totalHits pageSize : Int)).toNat

/-- Modelled from the spec: the Paginator contract
`window(total_hits, requested_page, page_size) -> (start, end)` with
`start = (effective_page - 1) * page_size` and `end = start + page_size`,
a half-open zero-based result window. -/
def window (totalHits : Nat) (requestedPage : Int) (pageSize : Nat) : Nat × Nat :=
  ((effectivePage totalHits requestedPage pageSize - 1) * pageSize,
   (effectivePage totalHits requestedPage pageSize - 1) * pageSize + pageSize)

/-- `max_page` is at least 1 whenever the page size is positive. -/
lemma one_le_maxPage (totalHits pageSize : Nat) (hs : 0 < pageSize) :
    1 ≤ maxPage totalHits pageSize := by
  unfold maxPage
  split
  · have h1 : pageSize ≤ totalHits + pageSize - 1 := by omega
    exact Nat.one_le_div_iff hs |>.mpr h1
  · exact le_refl 1

/-- The effective page always lies between 1 and `max_page`. -/
lemma effectivePage_bounds (totalHits : Nat) (requestedPage : Int) (pageSize : Nat)
    (hs : 0 < pageSize) :
    1 ≤ effectivePage totalHits requestedPage pageSize ∧
      effectivePage totalHits requestedPage pageSize ≤ maxPage totalHits pageSize := by
  have hm : 1 ≤ maxPage totalHits pageSize := one_le_maxPage totalHits pageSize hs
  unfold effectivePage
  constructor
  · have h1 : (1 : Int) ≤ min (max requestedPage 1) (maxPage totalHits pageSize : Int) := by
      have := le_max_right requestedPage 1
      have h2 : (1 : Int) ≤ (maxPage totalHits pageSize : Int) := by exact_mod_cast hm
      exact le_min (le_max_right requestedPage 1) h2
    omega
  · have h2 : min (max requestedPage 1) (maxPage totalHits pageSize : Int) ≤
        (maxPage totalHits pageSize : Int) := min_le_right _ _
    omega

/-- `max_page` is the exact ceiling of `total_hits / page_size` for positive hit
counts: `(max_page - 1) * page_size < total_hits ≤ max_page * page_size`. -/
lemma maxPage_ceil (totalHits pageSize : Nat) (hs : 0 < pageSize) (ht : 0 < totalHits) :
    (maxPage totalHits pageSize - 1) * pageSize < totalHits ∧
      totalHits ≤ maxPage totalHits pageSize * pageSize := by
  have hmp : maxPage totalHits pageSize = (totalHits + pageSize - 1) / pageSize := by
    unfold maxPage; simp [ht]
  set q := (totalHits + pageSize - 1) / pageSize with hq
  have hmod : pageSize * q + (totalHits + pageSize - 1) % pageSize
      = totalHits + pageSize - 1 := Nat.div_add_mod _ _
  have hr : (totalHits + pageSize - 1) % pageSize < pageSize := Nat.mod_lt _ hs
  have hq1 : 1 ≤ q := by
    rw [hq]
    exact (Nat.one_le_div_iff hs).mpr (by omega)
  have hsub : (q - 1) * pageSize = q * pageSize - 1 * pageSize := Nat.sub_mul q 1 pageSize
  have hqmul : pageSize * q = q * pageSize := Nat.mul_comm _ _
  rw [hmp]
  constructor
  · rw [hsub]
    omega
  · omega

/-- Clamping branch: a requested page below 1 gives the same window as page 1. -/
lemma window_of_le_one (totalHits : Nat) (requestedPage : Int) (pageSize : Nat)
    (hp : requestedPage ≤ 1) :
    window totalHits requestedPage pageSize = window totalHits 1 pageSize := by
  unfold window effectivePage
  have h1 : max requestedPage 1 = 1 := max_eq_right hp
  rw [h1, max_self]

/-- Clamping branch: a requested page at or above `max_page` gives the same window
as `max_page` itself. -/
lemma window_of_ge_maxPage (totalHits : Nat) (requestedPage : Int) (pageSize : Nat)
    (hs : 0 < pageSize) (hp : (maxPage totalHits pageSize : Int) ≤ requestedPage) :
    window totalHits requestedPage pageSize
      = window totalHits (maxPage totalHits pageSize) pageSize := by
  have hm : 1 ≤ maxPage totalHits pageSize := one_le_maxPage totalHits pageSize hs
  have hm' : (1 : Int) ≤ (maxPage totalHits pageSize : Int) := by exact_mod_cast hm
  unfold window effectivePage
  have h1 : max requestedPage 1 = requestedPage := max_eq_left (le_trans hm' hp)
  have h2 : min requestedPage (maxPage totalHits pageSize : Int)
      = (maxPage totalHits pageSize : Int) := min_eq_right hp
  have h3 : max ((maxPage totalHits pageSize : Int)) 1 = (maxPage totalHits pageSize : Int) :=
    max_eq_left hm'
  have h4 : min ((maxPage totalHits pageSize : Int)) ((maxPage totalHits pageSize : Int))
      = (maxPage totalHits pageSize : Int) := min_self _
  rw [h1, h2, h3, h4]

/-! ## SortResolver -/

/-- Modelled from the spec: a nested-field sort descriptor (the values of
`NESTED_SORT_FIELDS` in the missing `django_opensearch_dsl_filtering.filters`):
a target field, an optional nested path (required for a valid resolution) and
an optional aggregation mode, defaulting to `avg` when omitted. -/
structure NestedSortDescriptor where
  field : String
  nested_path : Option String
  mode : Option String
deriving DecidableEq, Repr

/-- Modelled from the spec: a declared sort-key target is either a flat
descriptor (just the underlying field path) or a nested descriptor. -/
inductive SortDescriptor where
  | flat (field : String)
  | nested (d : NestedSortDescriptor)
deriving DecidableEq, Repr

/-- Modelled from the spec: the clause handed to the document store's `sort`:
either the signed field reference itself (a plain string) for flat sorts, or an
object keyed by the target field carrying `order`, `mode` and the nested-path
qualifier for nested sorts. -/
inductive SortClause where
  | fieldRef (s : String)
  | nestedObj (targetField : String) (order : String) (mode : String) (nestedPath : String)
deriving DecidableEq, Repr

/-- Modelled from the spec: the sort-configuration error raised when a nested
descriptor lacks its required `nested_path`; it identifies the offending sort
key. -/
inductive SortError where
  | missingNestedPath (sortKey : String)
deriving DecidableEq, Repr

deriving instance DecidableEq for Except

/-- Modelled from the spec: strip the descending marker (a leading `-`) from a
sort token, returning the direction flag (`true` = descending) and the base
key. -/
def stripMarker (token : String) : Bool × String :=
  if token.data.head? = some '-' then (true, String.mk token.data.tail)
  else (false, token)

/-- Look up a base key in the declared sort configuration (an association list;
keys are unique in the declared mapping). -/
def lookupKey (cfg : List (String × SortDescriptor)) (key : String) : Option SortDescriptor :=
  match cfg.find? (fun p => p.1 = key) with
  | none => none
  | some p => some p.2

/-- Modelled from the spec: the SortResolver.  Strip the marker; an empty or
undeclared base key yields no clause; a flat descriptor yields the signed field
reference; a nested descriptor yields the object clause with resolved order,
mode defaulting to `avg`, and the nested-path qualifier; a nested descriptor
without `nested_path` is a fatal configuration error naming the sort key. -/
def resolveSort (cfg : List (String × SortDescriptor)) (token? : Option String) :
    Except SortError (Option SortClause) :=
  match token? with
  | none => .ok none
  | some token =>
    let (isDesc, base) := stripMarker token
    if base = "" then .ok none
    else
      match lookupKey cfg base with
      | none => .ok none
      | some (.flat f) =>
          .ok (some (.fieldRef (if isDesc then "-" ++ f else f)))
      | some (.nested d) =>
          match d.nested_path with
          | none => .error (.missingNestedPath base)
          | some path =>
              .ok (some (.nestedObj d.field (if isDesc then "desc" else "asc")
                (d.mode.getD "avg") path))

/-! ## FieldFilter: labels, declarations, clause building, form fields -/

/-- Title-case one word: first character upper-cased, the rest lower-cased. -/
def titleWord : List Char → List Char
  | [] => []
  | c :: cs => c.toUpper :: cs.map Char.toLower

/-- Split a character list on underscores (auxiliary accumulator recursion). -/
def splitUnderscore : List Char → List Char → List (List Char)
  | [], acc => [acc.reverse]
  | c :: cs, acc =>
      if c = '_' then acc.reverse :: splitUnderscore cs []
      else splitUnderscore cs (c :: acc)

/-- Modelled from the spec: the default display label of a filter (missing
`django_opensearch_dsl_filtering.filters` base filter), derived from
`field_name` by replacing underscores with spaces and title-casing each
word. -/
def deriveLabel (fieldName : String) : String :=
  String.intercalate " " ((splitUnderscore fieldName.data []).map
    (fun w => String.mk (titleWord w)))

/-- Modelled from the spec: the closed set of filter kinds (equality,
pattern-match, full-text match, bound comparisons, boolean flag, bounded
range pair) as declared via the filter classes of the missing package. -/
inductive FilterKind where
  | char
  | numeric
  | date
  | boolean
  | range
deriving DecidableEq, Repr

/-- Modelled from the spec: one declared FieldFilter of a FilterSet: the
attribute name it is declared under, its kind, the target document field and
the lookup expression. -/
structure FilterDecl where
  name : String
  kind : FilterKind
  field_name : String
  lookup_expr : String
deriving DecidableEq, Repr

/-- Modelled from the spec: a validated input value after form binding. -/
inductive Value where
  | str (s : String)
  | num (n : Int)
  | boolean (b : Bool)
deriving DecidableEq, Repr

/-- Numeric view of a validated value; non-numeric values do not validate
against a numeric widget and count as absent. -/
def Value.toNum? : Value → Option Int
  | .num n => some n
  | _ => none

/-- Modelled from the spec: a query clause in the document store's native
shape: a single-field lookup leaf, or a range clause with optional inclusive
lower (`gte`) and upper (`lte`) bounds. -/
inductive QueryClause where
  | leaf (lookup : String) (field : String) (value : Value)
  | range (field : String) (gte : Option Int) (lte : Option Int)
deriving DecidableEq, Repr

/-- Look up a raw input key in the bound data (an association list). -/
def lookupValue (data : List (String × Value)) (key : String) : Option Value :=
  (data.find? (fun p => p.1 = key)).map (fun p => p.2)

/-- Modelled from the spec: the RangeFilter clause builder. Each bound is
independently optional; with neither bound present no clause is produced;
present bounds are inclusive (`gte`/`lte`). -/
def buildRangeClause (field : String) (minV maxV : Option Int) : Option QueryClause :=
  match minV, maxV with
  | none, none => none
  | _, _ => some (.range field minV maxV)

/-- Whether an integer satisfies a range clause's bounds (the document-store
semantics of `gte`/`lte`: both inclusive). -/
def rangeMatchesNum (gte lte : Option Int) (x : Int) : Bool :=
  (match gte with | none => true | some a => decide (a ≤ x)) &&
  (match lte with | none => true | some b => decide (x ≤ b))

/-- Modelled from the spec: `build_clause` of one declared filter against the
bound data. A range filter reads its two synthesized companion keys
`<name>_min_value` and `<name>_max_value`; every other kind reads its own
attribute name and emits one leaf clause when a value is present. -/
def FilterDecl.buildClause (d : FilterDecl) (data : List (String × Value)) :
    Option QueryClause :=
  match d.kind with
  | .range =>
      buildRangeClause d.field_name
        ((lookupValue data (d.name ++ "_min_value")).bind Value.toNum?)
        ((lookupValue data (d.name ++ "_max_value")).bind Value.toNum?)
  | _ =>
      match lookupValue data d.name with
      | none => none
      | some v => some (.leaf d.lookup_expr d.field_name v)

/-- Modelled from the spec: the form keys generated for one declared filter:
one field under the attribute name, except a range filter which generates the
two suffixed bound fields. -/
def FilterDecl.formKeys (d : FilterDecl) : List String :=
  match d.kind with
  | .range => [d.name ++ "_min_value", d.name ++ "_max_value"]
  | _ => [d.name]

/-- Modelled from the spec: the full generated form field set of a
DocumentFilterSet: the per-filter fields followed by the built-in `sort`,
`page` and `page_size` fields. -/
def formFieldKeys (decls : List FilterDecl) : List String :=
  (decls.flatMap FilterDecl.formKeys) ++ ["sort", "page", "page_size"]

/-! ## Filter constructors with label defaults -/

/-- Modelled from the spec / tests: `CharFilter(field_name, lookup_expr,
label)` with lookup defaulting to `match` and label derived from
`field_name`. -/
structure CharFilter where
  field_name : String
  lookup_expr : String
  label : String
deriving DecidableEq, Repr

def CharFilter.make (field_name : String) (lookup_expr? label? : Option String) :
    CharFilter :=
  { field_name := field_name
    lookup_expr := lookup_expr?.getD "match"
    label := label?.getD (deriveLabel field_name) }

/-- Modelled from the spec / tests: `BooleanFilter(field_name, label)` with
label derived from `field_name` when omitted. -/
structure BooleanFilter where
  field_name : String
  label : String
deriving DecidableEq, Repr

def BooleanFilter.make (field_name : String) (label? : Option String) : BooleanFilter :=
  { field_name := field_name
    label := label?.getD (deriveLabel field_name) }

/-- Modelled from the spec / tests: `RangeFilter(field_name, label, min_label,
max_label)`; omitted bound labels default to `"Min "`/`"Max "` prepended to
the (possibly derived) label. -/
structure RangeFilter where
  field_name : String
  label : String
  min_label : String
  max_label : String
deriving DecidableEq, Repr

def RangeFilter.make (field_name : String) (label? min_label? max_label? : Option String) :
    RangeFilter :=
  let lbl := label?.getD (deriveLabel field_name)
  { field_name := field_name
    label := lbl
    min_label := min_label?.getD ("Min " ++ lbl)
    max_label := max_label?.getD ("Max " ++ lbl) }

/-! ## DocumentFilterSet orchestrator -/

/-- Modelled from the spec: raw per-request input for `page` / `page_size`:
absent, non-numeric (fails form validation), or a numeric value. -/
inductive RawParam where
  | absent
  | invalid
  | numeric (n : Int)
deriving DecidableEq, Repr

/-- Modelled from the spec: coercion of a raw pagination parameter to a
positive integer: absent, non-numeric or non-positive input falls back to the
default; it never fails. -/
def coercePositive (p : RawParam) (default : Nat) : Nat :=
  match p with
  | .absent => default
  | .invalid => default
  | .numeric n => if 0 < n then n.toNat else default

/-- Modelled from the spec: the declared (immutable) configuration of a
concrete DocumentFilterSet: its FieldFilter declarations, sort configuration,
and default page size. -/
structure FilterSetConfig where
  filters : List FilterDecl
  sortConfig : List (String × SortDescriptor)
  default_page_size : Nat
deriving Repr

/-- Modelled from the spec: the ephemeral bound request: validated filter
input data, the requested sort token, and the raw pagination parameters. -/
structure RequestInput where
  data : List (String × Value)
  sort : Option String
  page : RawParam
  page_size : RawParam
deriving Repr

/-- Modelled from the spec: the fully composed query handle returned by
`search()`: the AND-composed filter clauses, the optional sort clause, and
the applied result window. -/
structure QueryHandle where
  clauses : List QueryClause
  sortClause : Option SortClause
  window : Nat × Nat
deriving DecidableEq, Repr

/-- Compose the clauses of all declared filters that produced one (implicit
logical AND). -/
def composeClauses (filters : List FilterDecl) (data : List (String × Value)) :
    List QueryClause :=
  filters.filterMap (fun d => d.buildClause data)

/-- Modelled from the spec: `DocumentFilterSet.search()`: bind and compose
filter clauses, resolve the sort (propagating a sort-configuration error as a
fatal build error, so the caller receives no query handle), coerce the
pagination inputs, clamp the window against the collaborator-reported total
hit count, and return the composed handle. -/
def DocumentFilterSet.search (cfg : FilterSetConfig) (inp : RequestInput)
    (totalHits : Nat) : Except SortError QueryHandle :=
  let clauses := composeClauses cfg.filters inp.data
  match resolveSort cfg.sortConfig inp.sort with
  | .error e => .error e
  | .ok sc =>
      let page := coercePositive inp.page 1
      let pageSize := coercePositive inp.page_size cfg.default_page_size
      .ok { clauses := clauses
            sortClause := sc
            window := window totalHits (page : Int) pageSize }

/-- The filter declarations of `BookDocumentFilterSet` from
`tests/test_filters_integration.py`. -/
def bookFilterDecls : List FilterDecl :=
  [ ⟨"title", .char, "title", "match"⟩,
    ⟨"author", .char, "author", "match"⟩,
    ⟨"isbn", .char, "isbn", "term"⟩,
    ⟨"publication_date", .date, "publication_date", "term"⟩,
    ⟨"price", .numeric, "price", "term"⟩,
    ⟨"price_min", .numeric, "price", "gte"⟩,
    ⟨"price_max", .numeric, "price", "lte"⟩,
    ⟨"price_range", .range, "price", "range"⟩,
    ⟨"in_stock", .boolean, "in_stock", "term"⟩ ]

/-! ## Helper lemmas -/

/-- Membership in the form keys of one declared filter: the attribute name for
every non-range kind, the two suffixed bound keys for a range filter. -/
lemma mem_formKeys (d : FilterDecl) (s : String) :
    s ∈ d.formKeys ↔
      (d.kind ≠ .range ∧ s = d.name)
        ∨ (d.kind = .range ∧ (s = d.name ++ "_min_value" ∨ s = d.name ++ "_max_value")) := by
  obtain ⟨n, k, fn, le⟩ := d
  cases k <;> simp [FilterDecl.formKeys]

/-- A token whose first character is not the descending marker strips to itself
with ascending direction. -/
lemma stripMarker_no_marker (token : String) (h : token.data.head? ≠ some '-') :
    stripMarker token = (false, token) := by
  unfold stripMarker
  rw [if_neg h]

/-- Prefixing a token with the descending marker strips to the same base key
with descending direction. -/
lemma stripMarker_dash (t : String) : stripMarker ("-" ++ t) = (true, t) := by
  cases t with
  | mk d =>
      show stripMarker (String.mk ('-' :: d)) = (true, String.mk d)
      rfl

end OpensearchFiltering

namespace OpensearchFiltering

/-! ## Claim theorems -/

/-- C1: Paginator window computation: for every `total_hits ≥ 0`, `page_size > 0`
and integer `requested_page`, the window is
`((effective_page - 1) * page_size, (effective_page - 1) * page_size + page_size)`
with `effective_page = min(max(requested_page, 1), max_page)` and `max_page` the
ceiling of `total_hits / page_size` when `total_hits > 0` (characterised by
`(max_page - 1) * page_size < total_hits ≤ max_page * page_size`) and 1
otherwise; zero total hits yield `[0, page_size)` for every requested page, a
requested page below 1 acts as page 1, and a requested page above `max_page`
acts as `max_page`. -/
theorem pagination_window_correct (totalHits : Nat) (requestedPage : Int)
    (pageSize : Nat) (hs : 0 < pageSize) :
    window totalHits requestedPage pageSize
        = ((effectivePage totalHits requestedPage pageSize - 1) * pageSize,
           (effectivePage totalHits requestedPage pageSize - 1) * pageSize + pageSize)
      ∧ (effectivePage totalHits requestedPage pageSize : Int)
          = min (max requestedPage 1) (maxPage totalHits pageSize : Int)
      ∧ (0 < totalHits →
          (maxPage totalHits pageSize - 1) * pageSize < totalHits
            ∧ totalHits ≤ maxPage totalHits pageSize * pageSize)
      ∧ (totalHits = 0 → maxPage totalHits pageSize = 1
            ∧ window totalHits requestedPage pageSize = (0, pageSize))
      ∧ (requestedPage < 1 →
          window totalHits requestedPage pageSize = window totalHits 1 pageSize)
      ∧ ((maxPage totalHits pageSize : Int) < requestedPage →
          window totalHits requestedPage pageSize
            = window totalHits (maxPage totalHits pageSize) pageSize) := by
  refine ⟨rfl, ?_, fun ht => maxPage_ceil totalHits pageSize hs ht, ?_, ?_, ?_⟩
  · have hm : 1 ≤ maxPage totalHits pageSize := one_le_maxPage totalHits pageSize hs
    have hm' : (1 : Int) ≤ (maxPage totalHits pageSize : Int) := by exact_mod_cast hm
    have h1 : (1 : Int) ≤ min (max requestedPage 1) (maxPage totalHits pageSize : Int) :=
      le_min (le_max_right requestedPage 1) hm'
    unfold effectivePage
    exact Int.toNat_of_nonneg (by omega)
  · intro ht
    subst ht
    have hmp : maxPage 0 pageSize = 1 := by unfold maxPage; simp
    refine ⟨hmp, ?_⟩
    unfold window effectivePage
    rw [hmp]
    have h1 : min (max requestedPage 1) ((1 : Nat) : Int) = 1 := by
      have := le_max_right requestedPage 1
      omega
    rw [h1]
    simp
  · intro hp
    exact window_of_le_one totalHits requestedPage pageSize (le_of_lt hp)
  · intro hp
    exact window_of_ge_maxPage totalHits requestedPage pageSize hs (le_of_lt hp)

/-- Witness for C1 at `total_hits = 15`, `requested_page = 3`, `page_size = 10`
(the scenario of `test_page_exceeds_max_redirects_to_last_page`). -/
theorem pagination_window_correct_witness :
    window 15 3 10
        = ((effectivePage 15 3 10 - 1) * 10, (effectivePage 15 3 10 - 1) * 10 + 10)
      ∧ (effectivePage 15 3 10 : Int) = min (max 3 1) (maxPage 15 10 : Int)
      ∧ (0 < 15 → (maxPage 15 10 - 1) * 10 < 15 ∧ 15 ≤ maxPage 15 10 * 10)
      ∧ ((15 : Nat) = 0 → maxPage 15 10 = 1 ∧ window 15 3 10 = (0, 10))
      ∧ ((3 : Int) < 1 → window 15 3 10 = window 15 1 10)
      ∧ ((maxPage 15 10 : Int) < 3 → window 15 3 10 = window 15 (maxPage 15 10) 10) :=
  pagination_window_correct 15 3 10 (by decide)

/-- C5: clamping is idempotent above the maximum page: for every `k ≥ 1` the
window at `requested_page = max_page + k` equals the window at `max_page`. -/
theorem pagination_clamp_idempotent (totalHits pageSize : Nat) (k : Int)
    (hs : 0 < pageSize) (hk : 1 ≤ k) :
    window totalHits ((maxPage totalHits pageSize : Int) + k) pageSize
      = window totalHits (maxPage totalHits pageSize) pageSize := by
  exact window_of_ge_maxPage totalHits _ pageSize hs (by omega)

/-- Witness for C5 at `total_hits = 20`, `page_size = 10`, `k = 1` (the scenario
of `test_page_boundary_plus_one`). -/
theorem pagination_clamp_idempotent_witness :
    window 20 ((maxPage 20 10 : Int) + 1) 10 = window 20 (maxPage 20 10) 10 :=
  pagination_clamp_idempotent 20 10 1 (by decide) (by decide)

/-- C2: a sort token whose base key maps to a nested descriptor resolves to an
object clause keyed by the descriptor's target field, with order `asc` for the
unmarked token and `desc` for the `-`-prefixed token, mode equal to the
descriptor's declared mode or `avg` when omitted, and carrying the descriptor's
nested path. -/
theorem nested_sort_resolution (cfg : List (String × SortDescriptor))
    (base f path : String) (mode : Option String)
    (hb : base ≠ "") (hh : base.data.head? ≠ some '-')
    (hl : lookupKey cfg base = some (.nested ⟨f, some path, mode⟩)) :
    resolveSort cfg (some base)
        = .ok (some (.nestedObj f "asc" (mode.getD "avg") path))
      ∧ resolveSort cfg (some ("-" ++ base))
          = .ok (some (.nestedObj f "desc" (mode.getD "avg") path))
      ∧ (mode = none → mode.getD "avg" = "avg")
      ∧ (∀ m, mode = some m → mode.getD "avg" = m) := by
  refine ⟨?_, ?_, ?_, ?_⟩
  · simp only [resolveSort, stripMarker_no_marker base hh, hl, if_neg hb]
    rfl
  · simp only [resolveSort, stripMarker_dash base, hl, if_neg hb]
    rfl
  · intro h; rw [h]; rfl
  · intro m h; rw [h]; rfl

/-- Witness for C2: the `salary` descriptor of
`test_nested_field_with_default_mode` (no declared mode, so `avg`). -/
theorem nested_sort_resolution_witness :
    resolveSort [("salary", .nested ⟨"employees.salary", some "employees", none⟩)]
        (some "salary")
        = .ok (some (.nestedObj "employees.salary" "asc"
            ((none : Option String).getD "avg") "employees"))
      ∧ resolveSort [("salary", .nested ⟨"employees.salary", some "employees", none⟩)]
          (some ("-" ++ "salary"))
          = .ok (some (.nestedObj "employees.salary" "desc"
              ((none : Option String).getD "avg") "employees"))
      ∧ ((none : Option String) = none → (none : Option String).getD "avg" = "avg")
      ∧ (∀ m, (none : Option String) = some m → (none : Option String).getD "avg" = m) :=
  nested_sort_resolution
    [("salary", .nested ⟨"employees.salary", some "employees", none⟩)]
    "salary" "employees.salary" "employees" none
    (by decide) (by decide) (by decide)

/-- C7: a sort token whose base key maps to a flat descriptor resolves to the
signed field reference itself: the plain field string when the marker is
absent, the `-`-prefixed field string when it is present. -/
theorem flat_sort_resolution (cfg : List (String × SortDescriptor)) (base f : String)
    (hb : base ≠ "") (hh : base.data.head? ≠ some '-')
    (hl : lookupKey cfg base = some (.flat f)) :
    resolveSort cfg (some base) = .ok (some (.fieldRef f))
      ∧ resolveSort cfg (some ("-" ++ base)) = .ok (some (.fieldRef ("-" ++ f))) := by
  constructor
  · simp only [resolveSort, stripMarker_no_marker base hh, hl, if_neg hb]
    rfl
  · simp only [resolveSort, stripMarker_dash base, hl, if_neg hb]
    rfl

/-- Witness for C7: the `title` flat sort of `test_simple_ascending_sort` /
`test_simple_descending_sort`. -/
theorem flat_sort_resolution_witness :
    resolveSort [("title", .flat "title")] (some "title")
        = .ok (some (.fieldRef "title"))
      ∧ resolveSort [("title", .flat "title")] (some ("-" ++ "title"))
          = .ok (some (.fieldRef ("-" ++ "title"))) :=
  flat_sort_resolution [("title", .flat "title")] "title" "title"
    (by decide) (by decide) (by decide)

/-- C3: when the requested sort key maps to a nested descriptor lacking
`nested_path`, the query build fails with the configuration error naming the
offending sort key (the descriptor itself is plain data — the error arises only
when `search` runs), and the caller receives no query handle at all. -/
theorem missing_nested_path_fatal (cfg : FilterSetConfig) (inp : RequestInput)
    (totalHits : Nat) (base f : String) (mode : Option String)
    (hb : base ≠ "") (hh : base.data.head? ≠ some '-')
    (hsort : inp.sort = some base)
    (hl : lookupKey cfg.sortConfig base = some (.nested ⟨f, none, mode⟩)) :
    resolveSort cfg.sortConfig inp.sort = .error (.missingNestedPath base)
      ∧ DocumentFilterSet.search cfg inp totalHits = .error (.missingNestedPath base)
      ∧ ∀ qh : QueryHandle, DocumentFilterSet.search cfg inp totalHits ≠ .ok qh := by
  have hres : resolveSort cfg.sortConfig inp.sort = .error (.missingNestedPath base) := by
    rw [hsort]
    simp only [resolveSort, stripMarker_no_marker base hh, hl, if_neg hb]
  refine ⟨hres, ?_, ?_⟩
  · simp only [DocumentFilterSet.search, hres]
  · intro qh
    simp only [DocumentFilterSet.search, hres]
    intro h
    cases h

/-- Witness for C3: the `employee_count` descriptor of
`test_nested_field_missing_nested_path_raises_error`. -/
theorem missing_nested_path_fatal_witness :
    resolveSort
        (FilterSetConfig.mk []
          [("employee_count", .nested ⟨"departments.employee_count", none, none⟩)]
          10).sortConfig
        (RequestInput.mk [] (some "employee_count") .absent .absent).sort
        = .error (.missingNestedPath "employee_count")
      ∧ DocumentFilterSet.search
          (FilterSetConfig.mk []
            [("employee_count", .nested ⟨"departments.employee_count", none, none⟩)]
            10)
          (RequestInput.mk [] (some "employee_count") .absent .absent) 0
          = .error (.missingNestedPath "employee_count")
      ∧ ∀ qh : QueryHandle,
          DocumentFilterSet.search
            (FilterSetConfig.mk []
              [("employee_count", .nested ⟨"departments.employee_count", none, none⟩)]
              10)
            (RequestInput.mk [] (some "employee_count") .absent .absent) 0
            ≠ .ok qh :=
  missing_nested_path_fatal _ _ 0 "employee_count" "departments.employee_count" none
    (by decide) (by decide) rfl (by decide)

/-- C4: when the requested sort token is absent, or its base key is empty or
not declared in the sort configuration, the built query carries no sort clause,
while the composed filter clauses and the clamped pagination window are still
produced. -/
theorem absent_sort_key_no_clause (cfg : FilterSetConfig) (inp : RequestInput)
    (totalHits : Nat)
    (h : inp.sort = none
      ∨ ∃ token, inp.sort = some token ∧
          ((stripMarker token).2 = ""
            ∨ lookupKey cfg.sortConfig (stripMarker token).2 = none)) :
    DocumentFilterSet.search cfg inp totalHits
      = .ok { clauses := composeClauses cfg.filters inp.data
              sortClause := none
              window := window totalHits (coercePositive inp.page 1)
                  (coercePositive inp.page_size cfg.default_page_size) } := by
  have hres : resolveSort cfg.sortConfig inp.sort = .ok none := by
    rcases h with h1 | ⟨token, htok, hcase⟩
    · rw [h1]; rfl
    · rw [htok]
      rcases hsm : stripMarker token with ⟨d, b⟩
      rw [hsm] at hcase
      rcases hcase with hb | hlk
      · simp only at hb
        simp only [resolveSort, hsm, hb]
        rfl
      · simp only at hlk
        by_cases hb : b = ""
        · simp only [resolveSort, hsm, hb]
          rfl
        · simp only [resolveSort, hsm, if_neg hb, hlk]
  simp only [DocumentFilterSet.search, hres]

/-- Witness for C4: the empty-input scenario of `test_no_sort_specified`. -/
theorem absent_sort_key_no_clause_witness :
    DocumentFilterSet.search (FilterSetConfig.mk [] [] 10)
        (RequestInput.mk [] none .absent .absent) 0
      = .ok { clauses := composeClauses (FilterSetConfig.mk [] [] 10).filters []
              sortClause := none
              window := window 0 (coercePositive .absent 1)
                  (coercePositive .absent (FilterSetConfig.mk [] [] 10).default_page_size) } :=
  absent_sort_key_no_clause (FilterSetConfig.mk [] [] 10)
    (RequestInput.mk [] none .absent .absent) 0 (Or.inl rfl)

/-- C8: invalid (absent, non-numeric or non-positive) raw `page` / `page_size`
input never fails the build: the coercion always yields a positive integer,
falls back to the defaults (1 for `page`, the configured default for
`page_size`) on bad input, the success of `search` does not depend on the
pagination inputs at all, and with both inputs invalid the build proceeds on
page 1 with the default page size. -/
theorem pagination_input_never_fatal (cfg : FilterSetConfig) (inp : RequestInput)
    (totalHits : Nat) (p q : RawParam) (n : Int) (d : Nat) (hd : 0 < d) :
    0 < coercePositive p d
      ∧ coercePositive .absent d = d
      ∧ coercePositive .invalid d = d
      ∧ (n ≤ 0 → coercePositive (.numeric n) d = d)
      ∧ ((DocumentFilterSet.search cfg
            { inp with page := p, page_size := q } totalHits).isOk
          = (DocumentFilterSet.search cfg inp totalHits).isOk)
      ∧ (∀ sc, resolveSort cfg.sortConfig inp.sort = .ok sc →
          DocumentFilterSet.search cfg
              { inp with page := .invalid, page_size := .invalid } totalHits
            = .ok { clauses := composeClauses cfg.filters inp.data
                    sortClause := sc
                    window := window totalHits 1 cfg.default_page_size }) := by
  refine ⟨?_, rfl, rfl, ?_, ?_, ?_⟩
  · cases p with
    | absent => exact hd
    | invalid => exact hd
    | numeric m =>
        dsimp only [coercePositive]
        split
        · omega
        · exact hd
  · intro hn
    dsimp only [coercePositive]
    rw [if_neg (by omega)]
  · cases hres : resolveSort cfg.sortConfig inp.sort with
    | error e => simp only [DocumentFilterSet.search, hres]
    | ok sc =>
        simp only [DocumentFilterSet.search, hres]
        rfl
  · intro sc hres
    simp only [DocumentFilterSet.search, hres]
    rfl

/-- Witness for C8: non-numeric `page` and `page_size` with an empty
configuration; the build still succeeds on page 1 with the default size. -/
theorem pagination_input_never_fatal_witness :
    0 < coercePositive .invalid 10
      ∧ coercePositive .absent 10 = 10
      ∧ coercePositive .invalid 10 = 10
      ∧ ((-2 : Int) ≤ 0 → coercePositive (.numeric (-2)) 10 = 10)
      ∧ ((DocumentFilterSet.search (FilterSetConfig.mk [] [] 10)
            { RequestInput.mk [] none .absent .absent with
                page := .invalid, page_size := .invalid } 0).isOk
          = (DocumentFilterSet.search (FilterSetConfig.mk [] [] 10)
              (RequestInput.mk [] none .absent .absent) 0).isOk)
      ∧ (∀ sc,
          resolveSort (FilterSetConfig.mk [] [] 10).sortConfig
              (RequestInput.mk [] none .absent .absent).sort = .ok sc →
          DocumentFilterSet.search (FilterSetConfig.mk [] [] 10)
              { RequestInput.mk [] none .absent .absent with
                  page := .invalid, page_size := .invalid } 0
            = .ok { clauses := composeClauses [] []
                    sortClause := sc
                    window := window 0 1 10 }) :=
  pagination_input_never_fatal (FilterSetConfig.mk [] [] 10)
    (RequestInput.mk [] none .absent .absent) 0 .invalid .invalid (-2) 10 (by decide)

/-- C6: a range filter reads the synthesized `<name>_min_value` /
`<name>_max_value` keys; with neither bound present it emits no clause, with
one bound present the clause constrains only that bound, with both present it
constrains both, and the bounds are inclusive under the range-clause
semantics. -/
theorem range_filter_bounds (d : FilterDecl) (data : List (String × Value))
    (mv xv : Option Int) (field : String) (a b x : Int)
    (hk : d.kind = .range)
    (hmin : (lookupValue data (d.name ++ "_min_value")).bind Value.toNum? = mv)
    (hmax : (lookupValue data (d.name ++ "_max_value")).bind Value.toNum? = xv) :
    d.buildClause data = buildRangeClause d.field_name mv xv
      ∧ buildRangeClause field none none = none
      ∧ buildRangeClause field (some a) none = some (.range field (some a) none)
      ∧ buildRangeClause field none (some b) = some (.range field none (some b))
      ∧ buildRangeClause field (some a) (some b) = some (.range field (some a) (some b))
      ∧ rangeMatchesNum (some a) none x = decide (a ≤ x)
      ∧ rangeMatchesNum none (some b) x = decide (x ≤ b)
      ∧ rangeMatchesNum (some a) (some b) x = (decide (a ≤ x) && decide (x ≤ b)) := by
  refine ⟨?_, rfl, rfl, rfl, rfl, ?_, ?_, rfl⟩
  · simp only [FilterDecl.buildClause, hk, hmin, hmax]
  · unfold rangeMatchesNum
    simp
  · unfold rangeMatchesNum
    simp

/-- Witness for C6: the `price_range` filter of `TestRangeFilterIntegration`
with only the minimum bound supplied. -/
theorem range_filter_bounds_witness :
    (FilterDecl.mk "price_range" .range "price" "range").buildClause
        [("price_range_min_value", .num 40)]
        = buildRangeClause "price" (some 40) none
      ∧ buildRangeClause "f" none none = none
      ∧ buildRangeClause "f" (some 30) none = some (.range "f" (some 30) none)
      ∧ buildRangeClause "f" none (some 50) = some (.range "f" none (some 50))
      ∧ buildRangeClause "f" (some 30) (some 50) = some (.range "f" (some 30) (some 50))
      ∧ rangeMatchesNum (some 30) none 40 = decide ((30 : Int) ≤ 40)
      ∧ rangeMatchesNum none (some 50) 40 = decide ((40 : Int) ≤ 50)
      ∧ rangeMatchesNum (some 30) (some 50) 40
          = (decide ((30 : Int) ≤ 40) && decide ((40 : Int) ≤ 50)) :=
  range_filter_bounds (FilterDecl.mk "price_range" .range "price" "range")
    [("price_range_min_value", .num 40)] (some 40) none "f" 30 50 40
    rfl (by decide) (by decide)

/-- C9: the generated form field set consists of exactly one field per
non-range filter under its attribute name, the two suffixed bound fields per
range filter, plus the built-in `sort`, `page` and `page_size` fields; for the
book FilterSet of the integration tests this is the exact expected key
list. -/
theorem form_field_generation (decls : List FilterDecl) (s : String) :
    (s ∈ formFieldKeys decls ↔
        (∃ d ∈ decls,
            (d.kind ≠ .range ∧ s = d.name)
              ∨ (d.kind = .range
                  ∧ (s = d.name ++ "_min_value" ∨ s = d.name ++ "_max_value")))
          ∨ s = "sort" ∨ s = "page" ∨ s = "page_size")
      ∧ formFieldKeys bookFilterDecls
          = ["title", "author", "isbn", "publication_date", "price", "price_min",
             "price_max", "price_range_min_value", "price_range_max_value",
             "in_stock", "sort", "page", "page_size"] := by
  constructor
  · unfold formFieldKeys
    simp only [List.mem_append, List.mem_flatMap, mem_formKeys,
      List.mem_cons, List.not_mem_nil, or_false]
  · rfl

/-- C10: an omitted filter label is derived from `field_name` by replacing
underscores with spaces and title-casing each word, and a RangeFilter's
omitted bound labels are `"Min "` / `"Max "` prepended to the (possibly
derived) label; concretely `in_stock ↦ In Stock` and
`price ↦ Min Price / Max Price`. -/
theorem default_label_derivation (fieldName : String) :
    (BooleanFilter.make fieldName none).label = deriveLabel fieldName
      ∧ (CharFilter.make fieldName none none).label = deriveLabel fieldName
      ∧ (RangeFilter.make fieldName none none none).label = deriveLabel fieldName
      ∧ (RangeFilter.make fieldName none none none).min_label
          = "Min " ++ deriveLabel fieldName
      ∧ (RangeFilter.make fieldName none none none).max_label
          = "Max " ++ deriveLabel fieldName
      ∧ deriveLabel "in_stock" = "In Stock"
      ∧ (BooleanFilter.make "in_stock" none).label = "In Stock"
      ∧ deriveLabel "price" = "Price"
      ∧ (RangeFilter.make "price" none none none).min_label = "Min Price"
      ∧ (RangeFilter.make "price" none none none).max_label = "Max Price" := by
  refine ⟨rfl, rfl, rfl, rfl, rfl, ?_, ?_, ?_, ?_, ?_⟩ <;> decide

end OpensearchFiltering
